import Mathlib

/-!
Shallow embedding of the BlimpModel package: `src/BlimpModel/blimp_lift.py`
(class `BlimpLift`) and `src/BlimpModel/blimp_z.py` (class `BlimpMotionZ`).
Machine floating-point numbers are modelled as exact reals; Python exceptions
are modelled with `Except`.
-/

namespace BlimpModel

/-- Python exceptions that the modelled code can raise:
`ValueError` in `BlimpLift.__init__` (the spec's `ConfigError`) and the
`IndexError` of indexing into an empty sample array inside
`simulate_motion` (the spec's `InputError`). -/
inductive PyError where
  | valueError
  | indexError
  deriving DecidableEq

/-- The state of a `BlimpLift` object after `__init__`
(`src/BlimpModel/blimp_lift.py`). -/
structure BlimpLift where
  VARIABLE_CHAMBER_SIZE : ℝ
  payload_kg : ℝ
  main_helium_volume : ℝ
  bladder_fill_volume : ℝ

/-- `BlimpLift.__init__(payload_grams, helium_liters, bladder_fill_volume,
VARIABLE_CHAMBER_SIZE)`: stores `payload_kg = payload_grams / 1000` and
validates `0 <= bladder_fill_volume <= VARIABLE_CHAMBER_SIZE`, raising
`ValueError` otherwise. -/
noncomputable def mkBlimpLift (payload_grams helium_liters bladder_fill_volume
    VARIABLE_CHAMBER_SIZE : ℝ) : Except PyError BlimpLift :=
  if 0 ≤ bladder_fill_volume ∧ bladder_fill_volume ≤ VARIABLE_CHAMBER_SIZE then
    Except.ok ⟨VARIABLE_CHAMBER_SIZE, payload_grams / 1000, helium_liters,
      bladder_fill_volume⟩
  else
    Except.error PyError.valueError

/-- `BlimpLift.get_pressure_at_altitude`: barometric formula
`P0 * exp((-g * M * altitude) / (R0 * T0))`.  (The method ignores `self`.) -/
noncomputable def get_pressure_at_altitude (altitude : ℝ) : ℝ :=
  101325 * Real.exp ((-(9.80665) * 0.02896968 * altitude) / (8.31446 * 288.15))

/-- `BlimpLift.calculate_densities`: ideal-gas densities of air and helium at
the given temperature (Celsius) and altitude; returns
`(air_density, helium_density)`.  (The method ignores `self`.) -/
noncomputable def calculate_densities (temperature_c : ℝ) (altitude : ℝ) : ℝ × ℝ :=
  let T := temperature_c + 273.15
  let P := get_pressure_at_altitude altitude
  ((P * 0.02896968) / (8.31446 * T), (P * 0.004002602) / (8.31446 * T))

/-- `BlimpLift.calculate_lift`: net lift force in Newtons and lift margin in
kilograms, `(net_lift, lift_margin_kg)`. -/
noncomputable def BlimpLift.calculate_lift (b : BlimpLift) (temperature_c : ℝ)
    (altitude : ℝ) : ℝ × ℝ :=
  let air_density := (calculate_densities temperature_c altitude).1
  let helium_density := (calculate_densities temperature_c altitude).2
  let g : ℝ := 9.81
  let main_volume_m3 := b.main_helium_volume / 1000
  let internal_air_m3 := b.bladder_fill_volume / 1000
  let helium_mass := helium_density * main_volume_m3
  let air_mass := air_density * internal_air_m3
  let buoyant_force := air_density * main_volume_m3 * g
  let weight_force := (helium_mass + air_mass + b.payload_kg) * g
  let net_lift := buoyant_force - weight_force
  (net_lift, net_lift / g)

/-- The vehicle of the spec's worked example: `payload=500 g`,
`main_gas_volume=50 L`, `trim_fill=0 L`, default chamber capacity 14 L. -/
noncomputable def blimpNominal : BlimpLift := ⟨14, 0.5, 50, 0⟩

/-- Modelled from the spec: the §4.1 reference computation of
`net_lift(temperature_c, altitude_m)` for a vehicle with the given payload
mass (kg), main gas volume (L) and trim fill (L), written out exactly as the
spec's formulas state it. -/
noncomputable def spec_net_lift (payload_mass_kg main_gas_volume_l trim_fill_l
    temperature_c altitude_m : ℝ) : ℝ :=
  let T := temperature_c + 273.15
  let P := 101325 * Real.exp ((-(9.80665) * 0.02896968 * altitude_m) / (8.31446 * 288.15))
  let air_density := (P * 0.02896968) / (8.31446 * T)
  let helium_density := (P * 0.004002602) / (8.31446 * T)
  let g : ℝ := 9.81
  let main_volume_m3 := main_gas_volume_l / 1000
  let buoyant_force := air_density * main_volume_m3 * g
  let helium_mass := helium_density * main_volume_m3
  let trim_mass := air_density * (trim_fill_l / 1000)
  buoyant_force - (helium_mass + trim_mass + payload_mass_kg) * g

/-- C1: the spec's example claims net lift is strictly positive for
payload 500 g, main gas 50 L, trim 0 L at 15 °C and altitude 0.  It is not:
the constructor accepts this configuration and `calculate_lift` returns a
strictly negative net lift (about -4.39 N), since 50 L of displaced air
weighs far less than the 500 g payload. -/
theorem C1_counterexample :
    mkBlimpLift 500 50 0 14 = Except.ok blimpNominal ∧
    (blimpNominal.calculate_lift 15 0).1 < 0 := by
  constructor
  · unfold mkBlimpLift blimpNominal
    rw [if_pos (by norm_num)]
    norm_num
  · unfold blimpNominal BlimpLift.calculate_lift calculate_densities
      get_pressure_at_altitude
    norm_num [Real.exp_zero]

/-- C1 (amended): for the example configuration (payload 500 g, main gas
50 L, trim 0 L) at 15 °C and altitude 0, the net lift returned by
`calculate_lift` equals the §4.1 reference computation exactly (hence within
any relative tolerance), and that value is strictly negative, not positive. -/
theorem C1_example_value :
    mkBlimpLift 500 50 0 14 = Except.ok blimpNominal ∧
    (blimpNominal.calculate_lift 15 0).1 = spec_net_lift 0.5 50 0 15 0 ∧
    (blimpNominal.calculate_lift 15 0).1 < 0 := by
  refine ⟨?_, ?_, ?_⟩
  · unfold mkBlimpLift blimpNominal
    rw [if_pos (by norm_num)]
    norm_num
  · unfold blimpNominal BlimpLift.calculate_lift calculate_densities
      get_pressure_at_altitude spec_net_lift
    ring
  · unfold blimpNominal BlimpLift.calculate_lift calculate_densities
      get_pressure_at_altitude
    norm_num [Real.exp_zero]

/-- C4: construction fails with `ValueError` (the spec's `ConfigError`)
exactly when the bladder fill is outside `[0, VARIABLE_CHAMBER_SIZE]`;
for a nonnegative capacity, fill `capacity + 1` fails while fills `0` and
`capacity` both succeed (boundaries inclusive). -/
theorem C4_trim_validation (pg hl bf cs : ℝ) (hcs : 0 ≤ cs) :
    (mkBlimpLift pg hl bf cs = Except.error PyError.valueError ↔
      ¬ (0 ≤ bf ∧ bf ≤ cs)) ∧
    mkBlimpLift pg hl (cs + 1) cs = Except.error PyError.valueError ∧
    (∃ b, mkBlimpLift pg hl 0 cs = Except.ok b) ∧
    (∃ b, mkBlimpLift pg hl cs cs = Except.ok b) := by
  refine ⟨?_, ?_, ?_, ?_⟩
  · unfold mkBlimpLift
    split
    · next h => simp [h]
    · next h => simp [h]
  · unfold mkBlimpLift
    rw [if_neg]
    rintro ⟨-, h⟩
    linarith
  · exact ⟨_, by unfold mkBlimpLift; rw [if_pos ⟨le_refl 0, hcs⟩]⟩
  · exact ⟨_, by unfold mkBlimpLift; rw [if_pos ⟨hcs, le_refl cs⟩]⟩

/-- C4 witness: the boundary behaviour at the default capacity 14. -/
theorem C4_trim_validation_witness :
    (mkBlimpLift 500 50 15 14 = Except.error PyError.valueError ↔
      ¬ ((0:ℝ) ≤ 15 ∧ (15:ℝ) ≤ 14)) ∧
    mkBlimpLift 500 50 (14 + 1) 14 = Except.error PyError.valueError ∧
    (∃ b, mkBlimpLift 500 50 0 14 = Except.ok b) ∧
    (∃ b, mkBlimpLift 500 50 14 14 = Except.ok b) := by
  have h := C4_trim_validation 500 50 15 14 (by norm_num)
  exact ⟨h.1, h.2.1, h.2.2.1, h.2.2.2⟩

/-- C6: the claim quantifies over every temperature; it fails for
temperatures below -273.15 °C, where the ideal-gas "air density" is negative
and adding air to the trim bladder then strictly increases net lift.  At
-274.15 °C (absolute temperature -1 K), altitude 0, the vehicle with
bladder fill 1 L has strictly greater net lift than the one with fill 0 L. -/
theorem C6_counterexample :
    ((⟨14, 0.5, 50, 0⟩ : BlimpLift).calculate_lift (-274.15) 0).1 <
    ((⟨14, 0.5, 50, 1⟩ : BlimpLift).calculate_lift (-274.15) 0).1 := by
  unfold BlimpLift.calculate_lift calculate_densities get_pressure_at_altitude
  norm_num [Real.exp_zero]

/-- C6 (amended): holding all other parameters fixed, `calculate_lift` is
strictly decreasing in the payload mass for every temperature and altitude,
and strictly decreasing in the bladder fill whenever the temperature is
above absolute zero (-273.15 °C). -/
theorem C6_monotone (cs hl p f f1 f2 p1 p2 t a : ℝ) (hp : p1 < p2)
    (hf : f1 < f2) :
    ((⟨cs, p2, hl, f⟩ : BlimpLift).calculate_lift t a).1 <
      ((⟨cs, p1, hl, f⟩ : BlimpLift).calculate_lift t a).1 ∧
    (-273.15 < t →
      ((⟨cs, p, hl, f2⟩ : BlimpLift).calculate_lift t a).1 <
        ((⟨cs, p, hl, f1⟩ : BlimpLift).calculate_lift t a).1) := by
  constructor
  · simp only [BlimpLift.calculate_lift]
    nlinarith [hp]
  · intro ht
    have hT : 0 < t + 273.15 := by linarith
    have hP : 0 < get_pressure_at_altitude a := by
      unfold get_pressure_at_altitude
      positivity
    have had : 0 < (calculate_densities t a).1 := by
      unfold calculate_densities
      positivity
    simp only [BlimpLift.calculate_lift]
    have key : (calculate_densities t a).1 * (f1 / 1000) <
        (calculate_densities t a).1 * (f2 / 1000) := by
      apply mul_lt_mul_of_pos_left _ had
      linarith
    nlinarith [key]

/-- C6 witness: concrete strict decreases at 15 °C, altitude 0. -/
theorem C6_monotone_witness :
    ((⟨14, 0.6, 50, 0⟩ : BlimpLift).calculate_lift 15 0).1 <
      ((⟨14, 0.5, 50, 0⟩ : BlimpLift).calculate_lift 15 0).1 ∧
    (-273.15 < (15:ℝ) →
      ((⟨14, 0.5, 50, 1⟩ : BlimpLift).calculate_lift 15 0).1 <
        ((⟨14, 0.5, 50, 0⟩ : BlimpLift).calculate_lift 15 0).1) :=
  C6_monotone 14 50 0.5 0 0 1 0.5 0.6 15 0 (by norm_num) (by norm_num)

/-- C7: the claim quantifies over every temperature; below -273.15 °C both
densities are negative and the helium density is strictly greater than the
air density, refuting "helium density is always strictly less than air
density".  Shown at -274.15 °C, altitude 0. -/
theorem C7_counterexample :
    (calculate_densities (-274.15) 0).1 < (calculate_densities (-274.15) 0).2 := by
  unfold calculate_densities get_pressure_at_altitude
  norm_num [Real.exp_zero]

/-- C7 (amended): for every temperature above absolute zero (-273.15 °C) and
every altitude, the helium density is the fixed molar-mass fraction
`0.004002602 / 0.02896968` of the air density (≈ 0.138), and is strictly
less than the air density. -/
theorem C7_density_ordering (t a : ℝ) (ht : -273.15 < t) :
    (calculate_densities t a).2 =
      0.004002602 / 0.02896968 * (calculate_densities t a).1 ∧
    (calculate_densities t a).2 < (calculate_densities t a).1 := by
  have hT : 0 < t + 273.15 := by linarith
  have hP : 0 < get_pressure_at_altitude a := by
    unfold get_pressure_at_altitude
    positivity
  have hD : 0 < (8.31446 : ℝ) * (t + 273.15) := by positivity
  constructor
  · unfold calculate_densities
    field_simp
    ring
  · unfold calculate_densities
    rw [div_lt_div_iff₀ hD hD]
    nlinarith [mul_pos hP hD]

/-- C7 witness: the ordering and exact ratio at 15 °C, altitude 0. -/
theorem C7_density_ordering_witness :
    (calculate_densities 15 0).2 =
      0.004002602 / 0.02896968 * (calculate_densities 15 0).1 ∧
    (calculate_densities 15 0).2 < (calculate_densities 15 0).1 :=
  C7_density_ordering 15 0 (by norm_num)

/-- One row of the environmental time-series table read by
`simulate_motion` (columns `altitude` and `temperature`). -/
structure EnvironmentSample where
  altitude : ℝ
  temperature : ℝ

/-- The mutable loop state of `simulate_motion`: current position, speed and
`altitude_index`. -/
structure SimState where
  position : ℝ
  speed : ℝ
  altitude_index : ℕ

/-- One appended sample of the simulation output. -/
structure TrajectoryPoint where
  time : ℝ
  position : ℝ
  speed : ℝ
  acceleration : ℝ

/-- The dictionary returned by `simulate_motion`, keys
`time`, `position`, `speed`, `acceleration`. -/
structure SimResult where
  time : List ℝ
  position : List ℝ
  speed : List ℝ
  acceleration : List ℝ

/-- The environmental-lookup update at the top of the `simulate_motion`
loop body: `if altitude_index < len(altitudes) - 1 and
position >= altitudes[altitude_index + 1]: altitude_index += 1`.
(Note: an `if`, incrementing at most once per time step.) -/
noncomputable def lookupIndex (altitudes : List ℝ) (position : ℝ) (idx : ℕ) : ℕ :=
  if idx < altitudes.length - 1 ∧ altitudes.getD (idx + 1) 0 ≤ position then
    idx + 1
  else
    idx

/-- One iteration of the `simulate_motion` loop body: advance the lookup
index, read `temperatures[altitude_index]` (an `IndexError` when the sample
arrays are empty), compute net lift, helium density, total mass and
acceleration, then update speed and position (semi-implicit Euler).
Returns the new state together with the acceleration recorded this step. -/
noncomputable def simStep (b : BlimpLift) (altitudes temperatures : List ℝ)
    (dt : ℝ) (s : SimState) : Except PyError (SimState × ℝ) :=
  let idx := lookupIndex altitudes s.position s.altitude_index
  (temperatures.get? idx).elim (Except.error PyError.indexError)
    fun current_temperature =>
      let current_altitude := s.position
      let net_lift_force := (b.calculate_lift current_temperature current_altitude).1
      let helium_density := (calculate_densities current_temperature current_altitude).2
      let total_mass := b.payload_kg + b.main_helium_volume / 1000 * helium_density
      let acceleration := net_lift_force / total_mass
      let new_speed := s.speed + acceleration * dt
      let new_position := s.position + new_speed * dt
      Except.ok (⟨new_position, new_speed, idx⟩, acceleration)

/-- The `for t in time_points` loop of `simulate_motion`: each step appends
`(t, position, speed, acceleration)` with position and speed already
updated; a raised exception aborts the run with no output. -/
noncomputable def simLoop (b : BlimpLift) (altitudes temperatures : List ℝ)
    (dt : ℝ) : SimState → List ℝ → Except PyError (List TrajectoryPoint)
  | _, [] => Except.ok []
  | s, t :: ts =>
    match simStep b altitudes temperatures dt s with
    | Except.error e => Except.error e
    | Except.ok (s2, acc) =>
      match simLoop b altitudes temperatures dt s2 ts with
      | Except.error e => Except.error e
      | Except.ok rest =>
        Except.ok ((⟨t, s2.position, s2.speed, acc⟩ : TrajectoryPoint) :: rest)

/-- `np.arange(0, total_time, dt)` in exact arithmetic (for positive `dt`):
the multiples `k * dt`, `k = 0, 1, ...`, that are strictly below
`total_time`; their number is `⌈total_time / dt⌉`. -/
noncomputable def time_points (total_time dt : ℝ) : List ℝ :=
  (List.range ⌈total_time / dt⌉₊).map fun (k : ℕ) => (k : ℝ) * dt

/-- `BlimpMotionZ.simulate_motion`, with the CSV read abstracted to the list
of `(altitude, temperature)` rows it yields: run the integration loop from
`position = 0, speed = 0, altitude_index = 0` over the time points and
package the four output columns. -/
noncomputable def simulate_motion (b : BlimpLift) (samples : List EnvironmentSample)
    (total_time dt : ℝ) : Except PyError SimResult :=
  let altitudes := samples.map fun r => r.altitude
  let temperatures := samples.map fun r => r.temperature
  (simLoop b altitudes temperatures dt ⟨0, 0, 0⟩ (time_points total_time dt)).map
    fun traj =>
      ⟨traj.map (fun p => p.time), traj.map (fun p => p.position),
        traj.map (fun p => p.speed), traj.map (fun p => p.acceleration)⟩

/-- The constructor call of the spec's worked example succeeds and stores
payload 0.5 kg. -/
lemma mk_nominal : mkBlimpLift 500 50 0 14 = Except.ok blimpNominal := by
  unfold mkBlimpLift blimpNominal
  rw [if_pos (by norm_num)]
  norm_num

/-- The lookup index stays within the sample array. -/
lemma lookupIndex_lt (altitudes : List ℝ) (pos : ℝ) (idx : ℕ)
    (h : idx < altitudes.length) :
    lookupIndex altitudes pos idx < altitudes.length := by
  unfold lookupIndex
  split
  · next hc =>
    obtain ⟨h1, -⟩ := hc
    omega
  · exact h

/-- With equal-length sample columns and an in-range index, a simulation
step succeeds and keeps the index in range. -/
lemma simStep_ok (b : BlimpLift) (alts temps : List ℝ) (dt : ℝ) (s : SimState)
    (hlen : alts.length = temps.length) (hidx : s.altitude_index < temps.length) :
    ∃ s2 acc, simStep b alts temps dt s = Except.ok (s2, acc) ∧
      s2.altitude_index < temps.length := by
  have h1 : lookupIndex alts s.position s.altitude_index < temps.length := by
    rw [← hlen] at hidx ⊢
    exact lookupIndex_lt alts s.position s.altitude_index hidx
  simp only [simStep]
  rw [List.get?_eq_get h1]
  exact ⟨_, _, rfl, h1⟩

/-- With empty sample columns a simulation step raises `IndexError`. -/
lemma simStep_empty (b : BlimpLift) (dt : ℝ) (s : SimState) :
    simStep b [] [] dt s = Except.error PyError.indexError := by
  simp [simStep]

/-- With empty sample columns the loop fails on its first iteration. -/
lemma simLoop_empty (b : BlimpLift) (dt : ℝ) (s : SimState) (t : ℝ)
    (ts : List ℝ) :
    simLoop b [] [] dt s (t :: ts) = Except.error PyError.indexError := by
  simp [simLoop, simStep_empty]

/-- With equal-length sample columns and an in-range starting index, the
loop succeeds and emits one trajectory point per time point, carrying the
time points through unchanged. -/
lemma simLoop_ok (b : BlimpLift) (alts temps : List ℝ) (dt : ℝ)
    (hlen : alts.length = temps.length) :
    ∀ (times : List ℝ) (s : SimState), s.altitude_index < temps.length →
      ∃ traj, simLoop b alts temps dt s times = Except.ok traj ∧
        traj.map (fun p => p.time) = times := by
  intro times
  induction times with
  | nil => exact fun s _ => ⟨[], rfl, rfl⟩
  | cons t ts ih =>
    intro s hs
    obtain ⟨s2, acc, hstep, hidx⟩ := simStep_ok b alts temps dt s hlen hs
    obtain ⟨traj, hloop, htime⟩ := ih s2 hidx
    refine ⟨⟨t, s2.position, s2.speed, acc⟩ :: traj, ?_, ?_⟩
    · simp [simLoop, hstep, hloop]
    · simp [htime]

/-- The number of time points is `⌈total_time / dt⌉`. -/
lemma time_points_length (T dt : ℝ) : (time_points T dt).length = ⌈T / dt⌉₊ := by
  unfold time_points
  rw [List.length_map, List.length_range]

/-- The `k`-th time point is `k * dt`. -/
lemma time_points_getD (T dt : ℝ) (k : ℕ) (hk : k < ⌈T / dt⌉₊) :
    (time_points T dt).getD k 0 = (k : ℝ) * dt := by
  unfold time_points
  rw [List.getD_eq_getElem?_getD, List.getElem?_map, List.getElem?_range hk]
  rfl

/-- For positive total time and time step there is at least one time point. -/
lemma time_points_ne_nil (T dt : ℝ) (hT : 0 < T) (hdt : 0 < dt) :
    time_points T dt ≠ [] := by
  have h : 0 < ⌈T / dt⌉₊ := Nat.ceil_pos.mpr (div_pos hT hdt)
  intro hnil
  have hlen := congrArg List.length hnil
  rw [time_points_length] at hlen
  simp only [List.length_nil] at hlen
  omega

/-- On a non-empty sample list, `simulate_motion` succeeds and its `time`
column is exactly the time-point grid, with all four columns of equal
length. -/
lemma simulate_motion_ok (b : BlimpLift) (samples : List EnvironmentSample)
    (T dt : ℝ) (hne : samples ≠ []) :
    ∃ r, simulate_motion b samples T dt = Except.ok r ∧
      r.time = time_points T dt ∧
      r.position.length = (time_points T dt).length ∧
      r.speed.length = (time_points T dt).length ∧
      r.acceleration.length = (time_points T dt).length := by
  have hlen : (samples.map fun r => r.altitude).length =
      (samples.map fun r => r.temperature).length := by simp
  have hidx : (⟨0, 0, 0⟩ : SimState).altitude_index <
      (samples.map fun r => r.temperature).length := by
    simpa using List.length_pos.mpr hne
  obtain ⟨traj, hok, htime⟩ :=
    simLoop_ok b _ _ dt hlen (time_points T dt) ⟨0, 0, 0⟩ hidx
  refine ⟨⟨traj.map (fun p => p.time), traj.map (fun p => p.position),
    traj.map (fun p => p.speed), traj.map (fun p => p.acceleration)⟩,
    ?_, htime, ?_, ?_, ?_⟩
  · simp [simulate_motion, hok, Except.map]
  all_goals simp [← htime]

/-- C2: the claim asserts a while-loop lookup whose exit condition holds
after every step.  The code uses an `if`, so when the position has crossed
two thresholds since the previous step the index advances only once: with
altitude thresholds `[-2, -1, 0]` and position 0, one step advances the
index to 1, yet 1 is not the last index and the position (0) is not below
`altitudes[1 + 1] = 0`. -/
theorem C2_counterexample :
    (simStep blimpNominal [-2, -1, 0] [15, 15, 15] (1/10) ⟨0, 0, 0⟩).toOption.map
        (fun r => r.1.altitude_index) = some 1 ∧
    ¬ ((1 : ℕ) = ([-2, -1, 0] : List ℝ).length - 1 ∨
        (0 : ℝ) < ([-2, -1, 0] : List ℝ).getD (1 + 1) 0) := by
  have hidx : lookupIndex [-2, -1, 0] 0 0 = 1 := by
    unfold lookupIndex
    rw [if_pos]
    constructor
    · norm_num
    · norm_num
  constructor
  · unfold simStep
    rw [show (⟨0, 0, 0⟩ : SimState).position = 0 from rfl,
      show (⟨0, 0, 0⟩ : SimState).altitude_index = 0 from rfl, hidx]
    simp [Except.toOption]
  · norm_num

/-- C2 (amended): the per-step environmental lookup advances the index at
most once: for every altitude list, position and index, the updated index
either equals `idx + 1`, or is unchanged because `idx` is already the last
index or the position is below the next threshold.  (When several
thresholds are crossed within one time step the index lags behind.) -/
theorem C2_lookup_step (altitudes : List ℝ) (position : ℝ) (idx : ℕ) :
    lookupIndex altitudes position idx = idx + 1 ∨
    (lookupIndex altitudes position idx = idx ∧
      (altitudes.length - 1 ≤ idx ∨ position < altitudes.getD (idx + 1) 0)) := by
  unfold lookupIndex
  split
  · exact Or.inl rfl
  · next hc =>
    push_neg at hc
    rcases Nat.lt_or_ge idx (altitudes.length - 1) with h | h
    · exact Or.inr ⟨rfl, Or.inr (by linarith [hc h])⟩
    · exact Or.inr ⟨rfl, Or.inl h⟩

/-- C3: for any positive total time and time step, an empty environmental
sample sequence makes `simulate_motion` fail immediately (the `IndexError`
of the first temperature lookup, the spec's `InputError`), with no
trajectory returned; a non-empty sample sequence never raises. -/
theorem C3_empty_input (b : BlimpLift) (samples : List EnvironmentSample)
    (total_time dt : ℝ) (hT : 0 < total_time) (hdt : 0 < dt) :
    (samples = [] →
      simulate_motion b samples total_time dt = Except.error PyError.indexError) ∧
    (samples ≠ [] → ∃ r, simulate_motion b samples total_time dt = Except.ok r) := by
  constructor
  · rintro rfl
    cases hcase : time_points total_time dt with
    | nil => exact absurd hcase (time_points_ne_nil total_time dt hT hdt)
    | cons t ts =>
      simp [simulate_motion, hcase, simLoop_empty, Except.map]
  · intro hne
    obtain ⟨r, hok, -⟩ := simulate_motion_ok b samples total_time dt hne
    exact ⟨r, hok⟩

/-- C3 witness: the two branches at the default parameters, total time 60,
time step 0.1, with a one-row sample sequence on the non-empty side. -/
theorem C3_empty_input_witness :
    (([⟨0, 15⟩] : List EnvironmentSample) = [] →
      simulate_motion blimpNominal [⟨0, 15⟩] 60 (1/10) =
        Except.error PyError.indexError) ∧
    (([⟨0, 15⟩] : List EnvironmentSample) ≠ [] →
      ∃ r, simulate_motion blimpNominal [⟨0, 15⟩] 60 (1/10) = Except.ok r) :=
  C3_empty_input blimpNominal [⟨0, 15⟩] 60 (1/10) (by norm_num) (by norm_num)

/-- C5: the claim says the trajectory has `floor(total_time / dt)` points,
but `np.arange(0, total_time, dt)` yields `ceil(total_time / dt)` points:
with a one-row sample sequence, `total_time = 1` and `dt = 2/5` the
simulation returns 3 trajectory points while `floor(1 / (2/5)) = 2`. -/
theorem C5_counterexample :
    (simulate_motion blimpNominal [⟨0, 15⟩] 1 (2/5)).toOption.map
        (fun r => r.time.length) = some 3 ∧
    ⌊(1 : ℝ) / (2/5)⌋₊ = 2 := by
  constructor
  · obtain ⟨r, hok, htime, -, -, -⟩ :=
      simulate_motion_ok blimpNominal [⟨0, 15⟩] 1 (2/5) (by simp)
    rw [hok]
    simp only [Except.toOption, Option.map_some']
    rw [htime, time_points_length]
    norm_num
    rw [Nat.ceil_eq_iff (by norm_num)]
    norm_num
  · rw [Nat.floor_eq_iff (by norm_num)]
    norm_num

/-- C5 (amended): for every non-empty sample sequence and positive
`total_time` and `dt`, `simulate_motion` succeeds with exactly
`⌈total_time / dt⌉` points in each of the four output columns (the arange
grid, which is `floor(total_time / dt)` only when `dt` divides
`total_time`), with `time[k] = k * dt`, so `time[0] = 0` and the times
strictly increase by `dt`. -/
theorem C5_output_grid (b : BlimpLift) (samples : List EnvironmentSample)
    (total_time dt : ℝ) (hne : samples ≠ []) (hdt : 0 < dt) :
    ∃ r, simulate_motion b samples total_time dt = Except.ok r ∧
      r.time.length = ⌈total_time / dt⌉₊ ∧
      r.position.length = r.time.length ∧
      r.speed.length = r.time.length ∧
      r.acceleration.length = r.time.length ∧
      r.time.getD 0 0 = 0 ∧
      (∀ k, k < r.time.length → r.time.getD k 0 = (k : ℝ) * dt) ∧
      (∀ k, k + 1 < r.time.length →
        r.time.getD k 0 < r.time.getD (k + 1) 0) := by
  obtain ⟨r, hok, htime, hp, hs, ha⟩ :=
    simulate_motion_ok b samples total_time dt hne
  have hlen : r.time.length = ⌈total_time / dt⌉₊ := by
    rw [htime, time_points_length]
  refine ⟨r, hok, hlen, ?_, ?_, ?_, ?_, ?_, ?_⟩
  · rw [hp, htime]
  · rw [hs, htime]
  · rw [ha, htime]
  · rcases Nat.eq_zero_or_pos ⌈total_time / dt⌉₊ with h0 | h0
    · rw [htime]
      unfold time_points
      rw [h0]
      simp
    · rw [htime, time_points_getD total_time dt 0 h0]
      simp
  · intro k hk
    rw [hlen] at hk
    rw [htime, time_points_getD total_time dt k hk]
  · intro k hk
    rw [hlen] at hk
    rw [htime, time_points_getD total_time dt k (by omega),
      time_points_getD total_time dt (k + 1) (by omega)]
    have hk1 : (k : ℝ) < (k : ℝ) + 1 := by linarith
    have := mul_lt_mul_of_pos_right hk1 hdt
    push_cast
    linarith

/-- C5 witness: the spec's own example grid, `total_time = 10`, `dt = 0.1`,
one-row sample sequence: the theorem applies and the point count
`⌈10 / (1/10)⌉` evaluates to exactly 100. -/
theorem C5_output_grid_witness :
    (∃ r, simulate_motion blimpNominal [⟨0, 15⟩] 10 (1/10) = Except.ok r ∧
      r.time.length = ⌈(10 : ℝ) / (1/10)⌉₊ ∧
      r.position.length = r.time.length ∧
      r.speed.length = r.time.length ∧
      r.acceleration.length = r.time.length ∧
      r.time.getD 0 0 = 0 ∧
      (∀ k, k < r.time.length → r.time.getD k 0 = (k : ℝ) * (1/10)) ∧
      (∀ k, k + 1 < r.time.length →
        r.time.getD k 0 < r.time.getD (k + 1) 0)) ∧
    ⌈(10 : ℝ) / (1/10)⌉₊ = 100 := by
  constructor
  · exact C5_output_grid blimpNominal [⟨0, 15⟩] 10 (1/10) (by simp) (by norm_num)
  · norm_num

/-- Whenever a simulation step succeeds, the acceleration it records is the
net lift force at the current temperature and position divided by
`payload_kg + main_helium_volume / 1000 * helium_density`. -/
lemma simStep_acceleration_eq (b : BlimpLift) (alts temps : List ℝ) (dt : ℝ)
    (s : SimState) :
    (simStep b alts temps dt s).toOption.map (fun r => r.2) =
      (temps.get? (lookupIndex alts s.position s.altitude_index)).map
        fun temp => (b.calculate_lift temp s.position).1 /
          (b.payload_kg + b.main_helium_volume / 1000 *
            (calculate_densities temp s.position).2) := by
  simp only [simStep]
  cases hg : temps.get? (lookupIndex alts s.position s.altitude_index) <;>
    simp [Except.toOption]

/-- C8: at every time step the inertial mass is
`payload_kg + main_volume_m3 * helium_density` — the trim-bladder air mass
is absent, unlike in the weight term of `calculate_lift` — and the recorded
acceleration is the net lift force at the current temperature and position
divided by that total mass. -/
theorem C8_inertial_mass (b : BlimpLift) (alts temps : List ℝ) (dt : ℝ)
    (s : SimState) :
    (simStep b alts temps dt s).toOption.map (fun r => r.2) =
      (temps.get? (lookupIndex alts s.position s.altitude_index)).map
        fun temp => (b.calculate_lift temp s.position).1 /
          (b.payload_kg + b.main_helium_volume / 1000 *
            (calculate_densities temp s.position).2) :=
  simStep_acceleration_eq b alts temps dt s

/-- C9: `simulate_motion` is a pure function of the vehicle, the sample
sequence, the total time and the time step — two runs on identical inputs
return the same result, and when both succeed all four output sequences
coincide. -/
theorem C9_deterministic (b : BlimpLift) (samples : List EnvironmentSample)
    (total_time dt : ℝ) (r1 r2 : Except PyError SimResult)
    (h1 : simulate_motion b samples total_time dt = r1)
    (h2 : simulate_motion b samples total_time dt = r2) :
    r1 = r2 ∧ ∀ a b2, r1 = Except.ok a → r2 = Except.ok b2 →
      a.time = b2.time ∧ a.position = b2.position ∧ a.speed = b2.speed ∧
        a.acceleration = b2.acceleration := by
  subst h1
  subst h2
  refine ⟨rfl, ?_⟩
  intro a b2 ha hb
  rw [ha] at hb
  injection hb with h
  subst h
  exact ⟨rfl, rfl, rfl, rfl⟩

/-- C9 witness: two runs of the spec's example scenario. -/
theorem C9_deterministic_witness :
    simulate_motion blimpNominal [⟨0, 15⟩] 10 (1/10) =
      simulate_motion blimpNominal [⟨0, 15⟩] 10 (1/10) ∧
    ∀ a b2, simulate_motion blimpNominal [⟨0, 15⟩] 10 (1/10) = Except.ok a →
      simulate_motion blimpNominal [⟨0, 15⟩] 10 (1/10) = Except.ok b2 →
      a.time = b2.time ∧ a.position = b2.position ∧ a.speed = b2.speed ∧
        a.acceleration = b2.acceleration :=
  C9_deterministic blimpNominal [⟨0, 15⟩] 10 (1/10) _ _ rfl rfl

/-- C10: the constructor takes the payload in grams and stores
`payload_kg = payload_grams / 1000`; that kilograms value is the one in the
weight term of every `calculate_lift` call and in the inertial mass of
every simulation step. -/
theorem C10_payload_grams (pg hl bf cs : ℝ) (b : BlimpLift)
    (h : mkBlimpLift pg hl bf cs = Except.ok b) :
    b.payload_kg = pg / 1000 ∧
    (∀ t a, (b.calculate_lift t a).1 =
      (calculate_densities t a).1 * (hl / 1000) * 9.81 -
        ((calculate_densities t a).2 * (hl / 1000) +
          (calculate_densities t a).1 * (bf / 1000) + pg / 1000) * 9.81) ∧
    (∀ alts temps dt s,
      (simStep b alts temps dt s).toOption.map (fun r => r.2) =
        (temps.get? (lookupIndex alts s.position s.altitude_index)).map
          fun temp => (b.calculate_lift temp s.position).1 /
            (pg / 1000 + hl / 1000 *
              (calculate_densities temp s.position).2)) := by
  unfold mkBlimpLift at h
  split at h
  · injection h with h
    subst h
    refine ⟨rfl, fun t a => rfl, fun alts temps dt s => ?_⟩
    exact simStep_acceleration_eq _ alts temps dt s
  · exact absurd h (by simp)

/-- C10 witness: the example constructor call, payload 500 g giving
0.5 kg in lift and inertial-mass computations. -/
theorem C10_payload_grams_witness :
    blimpNominal.payload_kg = 500 / 1000 ∧
    (∀ t a, (blimpNominal.calculate_lift t a).1 =
      (calculate_densities t a).1 * (50 / 1000) * 9.81 -
        ((calculate_densities t a).2 * (50 / 1000) +
          (calculate_densities t a).1 * (0 / 1000) + 500 / 1000) * 9.81) ∧
    (∀ alts temps dt s,
      (simStep blimpNominal alts temps dt s).toOption.map (fun r => r.2) =
        (temps.get? (lookupIndex alts s.position s.altitude_index)).map
          fun temp => (blimpNominal.calculate_lift temp s.position).1 /
            (500 / 1000 + 50 / 1000 *
              (calculate_densities temp s.position).2)) :=
  C10_payload_grams 500 50 0 14 blimpNominal mk_nominal

end BlimpModel
